import Mathlib

/-!
Shallow embedding of `src/server.js` of brettdashboard/bigquery-viewer.

The server keeps two process-wide mutable slots, `bigQueryClient` and
`bigQueryCredentials`, and exposes seven HTTP handlers.  Each handler is
modelled as a pure function from the current store (plus the request data
and an oracle giving the outcome of any outbound warehouse call) to the
new store and the JSON response.  Handler executions are modelled as
atomic (run to completion); the outcome of every `await`ed upstream call
is an explicit `Except String _` argument.  A boolean component of each
result records whether the handler reached an upstream call at all.
-/

namespace BigQueryViewer

/-- JavaScript runtime values, as far as the server inspects them. -/
inductive JsVal where
  | undefined
  | null
  | bool (b : Bool)
  | num (n : Int)
  | str (s : String)
  | arr (elems : List JsVal)
  | obj (fields : List (String × JsVal))
deriving Repr

/-- JavaScript `typeof` operator on the modelled values. -/
def jsTypeof : JsVal → String
  | .undefined => "undefined"
  | .null   => "object"
  | .bool _ => "boolean"
  | .num _  => "number"
  | .str _  => "string"
  | .arr _  => "object"
  | .obj _  => "object"

/-- A result row: a JS object, i.e. an ordered association list from
column names to values (keys of a JS object are distinct). -/
abbrev Row := List (String × JsVal)

/-- `Object.keys` on a row, in insertion order. -/
def jsObjectKeys (r : Row) : List String := r.map Prod.fst

/-- Property access `r[key]` on a row (`undefined` when absent). -/
def jsGet (r : Row) (key : String) : JsVal :=
  match r.find? (fun p => p.1 == key) with
  | some p => p.2
  | none => .undefined

/-- Truthiness test `!x` for a possibly-absent JS string:
`undefined` and the empty string are falsy. -/
def jsStrFalsy : Option String → Bool
  | none => true
  | some s => s == ""

/-- `x || null` for a possibly-absent JS string (empty string maps to null). -/
def jsOrNull : Option String → Option String
  | none => none
  | some s => if s == "" then none else some s

/-- The credentials retained after a successful connect
(`{ projectId, clientEmail }`, server.js line 47). -/
structure Credentials where
  projectId : String
  clientEmail : String
deriving Repr, DecidableEq

/-- The configuration a `new BigQuery({...})` client is built from
(server.js lines 36-42). -/
structure ClientConfig where
  projectId : String
  client_email : String
  private_key : String
deriving Repr, DecidableEq

/-- The in-memory store: the two module-level slots of server.js
(lines 14-15). -/
structure Store where
  bigQueryClient : Option ClientConfig
  bigQueryCredentials : Option Credentials
deriving Repr, DecidableEq

/-- Both slots start out null. -/
def initialStore : Store := { bigQueryClient := none, bigQueryCredentials := none }

/-- `privateKey.replace(/\\n/g, '\n')`: every two-character sequence
backslash-`n` becomes a newline character (server.js line 34). -/
def replaceEscapedNewlinesAux : List Char → List Char
  | [] => []
  | '\\' :: 'n' :: rest => '\n' :: replaceEscapedNewlinesAux rest
  | c :: rest => c :: replaceEscapedNewlinesAux rest

/-- String form of `replaceEscapedNewlinesAux`. -/
def replaceEscapedNewlines (s : String) : String :=
  String.mk (replaceEscapedNewlinesAux s.data)

/-- Response of `GET /api/bigquery/status` (server.js lines 18-23). -/
structure StatusResponse where
  connected : Bool
  projectId : Option String
deriving Repr, DecidableEq

/-- The status handler: `connected: bigQueryClient !== null`,
`projectId: bigQueryCredentials?.projectId || null`. -/
def statusHandler (s : Store) : StatusResponse :=
  { connected := s.bigQueryClient.isSome
  , projectId := jsOrNull (s.bigQueryCredentials.map Credentials.projectId) }

/-- Body of `POST /api/bigquery/connect`; each field may be absent. -/
structure ConnectBody where
  projectId : Option String
  clientEmail : Option String
  privateKey : Option String
deriving Repr, DecidableEq

/-- Response of the connect handler. -/
structure ConnectResponse where
  status : Nat
  success : Bool
  message : Option String
  error : Option String
deriving Repr, DecidableEq

/-- The connect handler (server.js lines 26-55).  `verifyOutcome` is the
outcome of the `await bigQueryClient.getDatasets()` test call at line 45;
the client slot is assigned before that call (line 36) and both slots are
cleared on failure (lines 51-52). -/
def connectHandler (s : Store) (body : ConnectBody)
    (verifyOutcome : Except String Unit) : Store × ConnectResponse :=
  if jsStrFalsy body.projectId || jsStrFalsy body.clientEmail ||
      jsStrFalsy body.privateKey then
    (s, { status := 400, success := false, message := none,
          error := some "Missing required credentials" })
  else
    let projectId := body.projectId.getD ""
    let clientEmail := body.clientEmail.getD ""
    let privateKey := body.privateKey.getD ""
    let formattedKey := replaceEscapedNewlines privateKey
    let client : ClientConfig :=
      { projectId := projectId, client_email := clientEmail,
        private_key := formattedKey }
    let s1 : Store := { s with bigQueryClient := some client }
    match verifyOutcome with
    | .ok _ =>
        ({ s1 with bigQueryCredentials := some ⟨projectId, clientEmail⟩ },
         { status := 200, success := true,
           message := some "Connected to BigQuery", error := none })
    | .error msg =>
        ({ bigQueryClient := none, bigQueryCredentials := none },
         { status := 401, success := false, message := none,
           error := some ("Authentication failed: " ++ msg) })

/-- Response of the disconnect handler. -/
structure SimpleResponse where
  status : Nat
  success : Bool
deriving Repr, DecidableEq

/-- The disconnect handler (server.js lines 58-62): unconditionally nulls
both slots and answers `{success: true}`. -/
def disconnectHandler (_s : Store) : Store × SimpleResponse :=
  ({ bigQueryClient := none, bigQueryCredentials := none },
   { status := 200, success := true })

/-- A dataset object as returned by the upstream SDK, as far as the
handler reads it (`ds.id`, `ds.metadata?.location`). -/
structure UpstreamDataset where
  id : String
  metadataLocation : Option String
deriving Repr, DecidableEq

/-- `{ id, location }` summary sent to the client. -/
structure DatasetSummary where
  id : String
  location : Option String
deriving Repr, DecidableEq

/-- Response of `GET /api/bigquery/datasets`. -/
structure DatasetsResponse where
  status : Nat
  datasets : List DatasetSummary
  error : Option String
deriving Repr, DecidableEq

/-- The datasets handler (server.js lines 65-81).  The boolean records
whether the upstream `getDatasets` call was made. -/
def datasetsHandler (s : Store)
    (upstream : Except String (List UpstreamDataset)) :
    Store × DatasetsResponse × Bool :=
  match s.bigQueryClient with
  | none =>
      (s, { status := 401, datasets := [],
            error := some "Not connected to BigQuery" }, false)
  | some _ =>
      match upstream with
      | .ok ds =>
          (s, { status := 200,
                datasets := ds.map (fun d =>
                  { id := d.id, location := d.metadataLocation }),
                error := none }, true)
      | .error msg =>
          (s, { status := 500, datasets := [], error := some msg }, true)

/-- A table object as returned by the upstream SDK (`t.id`,
`t.metadata?.type`). -/
structure UpstreamTable where
  id : String
  metadataType : Option String
deriving Repr, DecidableEq

/-- `{ id, type }` summary sent to the client. -/
structure TableSummary where
  id : String
  type : Option String
deriving Repr, DecidableEq

/-- Response of `GET /api/bigquery/tables/:datasetId`. -/
structure TablesResponse where
  status : Nat
  tables : List TableSummary
  error : Option String
deriving Repr, DecidableEq

/-- The tables handler (server.js lines 84-101). -/
def tablesHandler (s : Store) (_datasetId : String)
    (upstream : Except String (List UpstreamTable)) :
    Store × TablesResponse × Bool :=
  match s.bigQueryClient with
  | none =>
      (s, { status := 401, tables := [],
            error := some "Not connected to BigQuery" }, false)
  | some _ =>
      match upstream with
      | .ok ts =>
          (s, { status := 200,
                tables := ts.map (fun t =>
                  { id := t.id, type := t.metadataType }),
                error := none }, true)
      | .error msg =>
          (s, { status := 500, tables := [], error := some msg }, true)

/-- Decimal or hexadecimal digit value of a character. -/
def charHexVal (c : Char) : Option Nat :=
  if '0' ≤ c ∧ c ≤ '9' then some (c.toNat - '0'.toNat)
  else if 'a' ≤ c ∧ c ≤ 'f' then some (c.toNat - 'a'.toNat + 10)
  else if 'A' ≤ c ∧ c ≤ 'F' then some (c.toNat - 'A'.toNat + 10)
  else none

/-- Consume leading digits of the given radix, accumulating a value;
`none` means no digit was consumed (JS `NaN`). -/
def parseIntDigits (radix : Nat) (acc : Option Nat) : List Char → Option Nat
  | [] => acc
  | c :: rest =>
      match charHexVal c with
      | some v =>
          if v < radix then parseIntDigits radix (some ((acc.getD 0) * radix + v)) rest
          else acc
      | none => acc

/-- JavaScript `parseInt(x)` on a possibly-absent query string:
skips leading whitespace, optional sign, optional `0x`/`0X` hex prefix,
then reads leading digits; `none` models `NaN`. -/
def jsParseInt : Option String → Option Int
  | none => none
  | some str =>
    let cs := str.data.dropWhile (fun c =>
      c == ' ' || c == '\t' || c == '\n' || c == '\r')
    let signed : Int × List Char :=
      match cs with
      | '-' :: rest => (-1, rest)
      | '+' :: rest => (1, rest)
      | _ => (1, cs)
    let based : Nat × List Char :=
      match signed.2 with
      | '0' :: 'x' :: rest => (16, rest)
      | '0' :: 'X' :: rest => (16, rest)
      | _ => (10, signed.2)
    match parseIntDigits based.1 none based.2 with
    | none => none
    | some n => some (signed.1 * n)

/-- `v || d` for a JS number: `NaN` and `0` are falsy. -/
def jsNumOr (v : Option Int) (d : Int) : Int :=
  match v with
  | none => d
  | some n => if n = 0 then d else n

/-- Path and query parameters of `GET /api/bigquery/data/:datasetId/:tableId`. -/
structure DataParams where
  datasetId : String
  tableId : String
  limit : Option String
  offset : Option String
deriving Repr, DecidableEq

/-- Table metadata returned by the upstream `getMetadata` call:
`metadata.schema?.fields` (schema field descriptors, kept opaque) and
`metadata.numRows`. -/
structure TableMetadata where
  schemaFields : Option (List String)
  numRows : Option String
deriving Repr, DecidableEq

/-- Response of the table-data handler. -/
structure DataResponse where
  status : Nat
  rows : List Row
  schema : List String
  total : Option String
  error : Option String
deriving Repr

/-- The generated page query (server.js line 119). -/
def buildTableQuery (projectId datasetId tableId : String)
    (limit offset : Int) : String :=
  "SELECT * FROM `" ++ projectId ++ "." ++ datasetId ++ "." ++ tableId ++
    "` LIMIT " ++ toString limit ++ " OFFSET " ++ toString offset

/-- The table-data handler (server.js lines 104-126).  `metadataOutcome`
and `queryOutcome` are the outcomes of the two upstream calls; the third
result component records whether any upstream call was made, the fourth
is the SQL text actually sent to `bigQueryClient.query`, if reached.
Reading `bigQueryCredentials.projectId` while the credentials slot is
null throws inside the `try` block and surfaces as a 500. -/
def dataHandler (s : Store) (p : DataParams)
    (metadataOutcome : Except String TableMetadata)
    (queryOutcome : Except String (List Row)) :
    Store × DataResponse × Bool × Option String :=
  match s.bigQueryClient with
  | none =>
      (s, { status := 401, rows := [], schema := [], total := none,
            error := some "Not connected to BigQuery" }, false, none)
  | some _ =>
    let limit := jsNumOr (jsParseInt p.limit) 100
    let offset := jsNumOr (jsParseInt p.offset) 0
    match metadataOutcome with
    | .error msg =>
        (s, { status := 500, rows := [], schema := [], total := none,
              error := some msg }, true, none)
    | .ok md =>
      let schema := md.schemaFields.getD []
      match s.bigQueryCredentials with
      | none =>
          (s, { status := 500, rows := [], schema := [], total := none,
                error := some "Cannot read properties of null (reading 'projectId')" },
           true, none)
      | some creds =>
        let sql := buildTableQuery creds.projectId p.datasetId p.tableId limit offset
        match queryOutcome with
        | .error msg =>
            (s, { status := 500, rows := [], schema := [], total := none,
                  error := some msg }, true, some sql)
        | .ok rows =>
            (s, { status := 200, rows := rows, schema := schema,
                  total := md.numRows, error := none }, true, some sql)

/-- Response of `POST /api/bigquery/query`; schema entries are
`{ name, type }` pairs. -/
structure QueryResponse where
  status : Nat
  rows : List Row
  schema : List (String × String)
  error : Option String
deriving Repr

/-- Schema inference of server.js lines 141-143:
`Object.keys(rows[0]).map(name => ({ name, type: typeof rows[0][name] }))`
when there is at least one row, else the empty list. -/
def inferSchema (rows : List Row) : List (String × String) :=
  match rows with
  | [] => []
  | r :: _ => (jsObjectKeys r).map (fun name => (name, jsTypeof (jsGet r name)))

/-- The ad hoc query handler (server.js lines 129-148). -/
def queryHandler (s : Store) (query : Option String)
    (upstream : Except String (List Row)) :
    Store × QueryResponse × Bool :=
  match s.bigQueryClient with
  | none =>
      (s, { status := 401, rows := [], schema := [],
            error := some "Not connected to BigQuery" }, false)
  | some _ =>
    if jsStrFalsy query then
      (s, { status := 400, rows := [], schema := [],
            error := some "Query is required" }, false)
    else
      match upstream with
      | .ok rows =>
          (s, { status := 200, rows := rows, schema := inferSchema rows,
                error := none }, true)
      | .error msg =>
          (s, { status := 500, rows := [], schema := [],
                error := some msg }, true)

/-- One incoming request together with the outcomes of whatever upstream
calls its handler might make. -/
inductive Event where
  | statusReq
  | connectReq (body : ConnectBody) (verifyOutcome : Except String Unit)
  | disconnectReq
  | datasetsReq (upstream : Except String (List UpstreamDataset))
  | tablesReq (datasetId : String) (upstream : Except String (List UpstreamTable))
  | dataReq (p : DataParams) (metadataOutcome : Except String TableMetadata)
      (queryOutcome : Except String (List Row))
  | queryReq (query : Option String) (upstream : Except String (List Row))

/-- Store effect of one complete handler execution. -/
def stepStore (s : Store) : Event → Store
  | .statusReq => s
  | .connectReq body v => (connectHandler s body v).1
  | .disconnectReq => (disconnectHandler s).1
  | .datasetsReq u => (datasetsHandler s u).1
  | .tablesReq d u => (tablesHandler s d u).1
  | .dataReq p md qr => (dataHandler s p md qr).1
  | .queryReq q u => (queryHandler s q u).1

/-- The store after a sequence of handler executions from startup. -/
def runEvents (evs : List Event) : Store :=
  evs.foldl stepStore initialStore

/-- Both slots populated, or both absent. -/
def storeConsistent (s : Store) : Bool :=
  s.bigQueryClient.isSome == s.bigQueryCredentials.isSome

/-! ### Helper lemmas -/

theorem datasetsHandler_store (s : Store)
    (u : Except String (List UpstreamDataset)) :
    (datasetsHandler s u).1 = s := by
  unfold datasetsHandler
  cases s.bigQueryClient <;> cases u <;> rfl

theorem tablesHandler_store (s : Store) (d : String)
    (u : Except String (List UpstreamTable)) :
    (tablesHandler s d u).1 = s := by
  unfold tablesHandler
  cases s.bigQueryClient <;> cases u <;> rfl

theorem dataHandler_store (s : Store) (p : DataParams)
    (mo : Except String TableMetadata) (qo : Except String (List Row)) :
    (dataHandler s p mo qo).1 = s := by
  unfold dataHandler
  cases s.bigQueryClient <;> cases mo <;>
    cases s.bigQueryCredentials <;> cases qo <;> rfl

theorem queryHandler_store (s : Store) (q : Option String)
    (u : Except String (List Row)) :
    (queryHandler s q u).1 = s := by
  unfold queryHandler
  cases s.bigQueryClient <;> cases u <;>
    by_cases hq : jsStrFalsy q = true <;> simp [hq]

theorem connectHandler_consistent (s : Store) (b : ConnectBody)
    (v : Except String Unit) (h : storeConsistent s = true) :
    storeConsistent (connectHandler s b v).1 = true := by
  unfold connectHandler
  split
  · exact h
  · cases v <;> simp [storeConsistent]

theorem stepStore_consistent (s : Store) (e : Event)
    (h : storeConsistent s = true) :
    storeConsistent (stepStore s e) = true := by
  cases e with
  | statusReq => exact h
  | connectReq b v => exact connectHandler_consistent s b v h
  | disconnectReq => simp [stepStore, disconnectHandler, storeConsistent]
  | datasetsReq u => simpa [stepStore, datasetsHandler_store] using h
  | tablesReq d u => simpa [stepStore, tablesHandler_store] using h
  | dataReq p mo qo => simpa [stepStore, dataHandler_store] using h
  | queryReq q u => simpa [stepStore, queryHandler_store] using h

theorem foldl_stepStore_consistent (evs : List Event) (s : Store)
    (h : storeConsistent s = true) :
    storeConsistent (evs.foldl stepStore s) = true := by
  induction evs generalizing s with
  | nil => exact h
  | cons e rest ih => exact ih _ (stepStore_consistent s e h)

/-! ### Claims -/

/-- C1: every store state reachable by a sequence of handler executions
has either both the client handle and the credentials populated or both
absent, and each connection-requiring handler either answers 401 "Not
connected to BigQuery" or runs against a fully populated pair; connect
and disconnect set or clear both slots within a single handler
execution, so no partial state is externally observable. -/
theorem no_partial_state_observable (evs : List Event) :
    ((runEvents evs).bigQueryClient.isSome =
      (runEvents evs).bigQueryCredentials.isSome) ∧
    (∀ u, ((datasetsHandler (runEvents evs) u).2.1.status = 401 ∧
           (datasetsHandler (runEvents evs) u).2.1.error =
             some "Not connected to BigQuery") ∨
          ((runEvents evs).bigQueryClient.isSome = true ∧
           (runEvents evs).bigQueryCredentials.isSome = true)) ∧
    (∀ d u, ((tablesHandler (runEvents evs) d u).2.1.status = 401 ∧
           (tablesHandler (runEvents evs) d u).2.1.error =
             some "Not connected to BigQuery") ∨
          ((runEvents evs).bigQueryClient.isSome = true ∧
           (runEvents evs).bigQueryCredentials.isSome = true)) ∧
    (∀ p mo qo, ((dataHandler (runEvents evs) p mo qo).2.1.status = 401 ∧
           (dataHandler (runEvents evs) p mo qo).2.1.error =
             some "Not connected to BigQuery") ∨
          ((runEvents evs).bigQueryClient.isSome = true ∧
           (runEvents evs).bigQueryCredentials.isSome = true)) ∧
    (∀ q u, ((queryHandler (runEvents evs) q u).2.1.status = 401 ∧
           (queryHandler (runEvents evs) q u).2.1.error =
             some "Not connected to BigQuery") ∨
          ((runEvents evs).bigQueryClient.isSome = true ∧
           (runEvents evs).bigQueryCredentials.isSome = true)) := by
  have hcons : storeConsistent (runEvents evs) = true :=
    foldl_stepStore_consistent evs initialStore rfl
  have hco : (runEvents evs).bigQueryClient.isSome =
      (runEvents evs).bigQueryCredentials.isSome := by
    simpa [storeConsistent] using hcons
  refine ⟨hco, ?_, ?_, ?_, ?_⟩
  · intro u
    cases hc : (runEvents evs).bigQueryClient with
    | none => exact Or.inl (by unfold datasetsHandler; simp [hc])
    | some c => exact Or.inr ⟨by simp [hc], by rw [← hco]; simp [hc]⟩
  · intro d u
    cases hc : (runEvents evs).bigQueryClient with
    | none => exact Or.inl (by unfold tablesHandler; simp [hc])
    | some c => exact Or.inr ⟨by simp [hc], by rw [← hco]; simp [hc]⟩
  · intro p mo qo
    cases hc : (runEvents evs).bigQueryClient with
    | none => exact Or.inl (by unfold dataHandler; simp [hc])
    | some c => exact Or.inr ⟨by simp [hc], by rw [← hco]; simp [hc]⟩
  · intro q u
    cases hc : (runEvents evs).bigQueryClient with
    | none => exact Or.inl (by unfold queryHandler; simp [hc])
    | some c => exact Or.inr ⟨by simp [hc], by rw [← hco]; simp [hc]⟩

/-- C2: a connect request whose credential verification call fails clears
both slots so the store returns to the empty state, a subsequent status
reports connected=false even if it reported connected=true before, and
the response is 401 with the underlying error message included. -/
theorem connect_verify_failure_resets (s : Store) (body : ConnectBody)
    (msg : String)
    (h : (jsStrFalsy body.projectId || jsStrFalsy body.clientEmail ||
          jsStrFalsy body.privateKey) = false) :
    (connectHandler s body (.error msg)).1 = initialStore ∧
    (statusHandler (connectHandler s body (.error msg)).1).connected = false ∧
    (connectHandler s body (.error msg)).2.status = 401 ∧
    (connectHandler s body (.error msg)).2.error =
      some ("Authentication failed: " ++ msg) := by
  unfold connectHandler
  simp [h, initialStore, statusHandler, jsOrNull]

/-- C2 witness: a failing connect against a previously connected store. -/
theorem connect_verify_failure_resets_witness :
    (jsStrFalsy (some "proj1") || jsStrFalsy (some "svc") ||
      jsStrFalsy (some "KEY")) = false ∧
    ((connectHandler ⟨some ⟨"p0", "e0", "k0"⟩, some ⟨"p0", "e0"⟩⟩
        ⟨some "proj1", some "svc", some "KEY"⟩ (.error "boom")).1 = initialStore ∧
     (statusHandler (connectHandler ⟨some ⟨"p0", "e0", "k0"⟩, some ⟨"p0", "e0"⟩⟩
        ⟨some "proj1", some "svc", some "KEY"⟩ (.error "boom")).1).connected = false ∧
     (connectHandler ⟨some ⟨"p0", "e0", "k0"⟩, some ⟨"p0", "e0"⟩⟩
        ⟨some "proj1", some "svc", some "KEY"⟩ (.error "boom")).2.status = 401 ∧
     (connectHandler ⟨some ⟨"p0", "e0", "k0"⟩, some ⟨"p0", "e0"⟩⟩
        ⟨some "proj1", some "svc", some "KEY"⟩ (.error "boom")).2.error =
       some ("Authentication failed: " ++ "boom")) :=
  ⟨by decide,
   connect_verify_failure_resets ⟨some ⟨"p0", "e0", "k0"⟩, some ⟨"p0", "e0"⟩⟩
     ⟨some "proj1", some "svc", some "KEY"⟩ "boom" (by decide)⟩

/-- C3: a connect request with any of the three required fields missing
(or empty) gets a 400 validation error and the store is left exactly as
it was. -/
theorem connect_missing_field_400 (s : Store) (body : ConnectBody)
    (v : Except String Unit)
    (h : jsStrFalsy body.projectId = true ∨ jsStrFalsy body.clientEmail = true ∨
         jsStrFalsy body.privateKey = true) :
    (connectHandler s body v).1 = s ∧
    (connectHandler s body v).2.status = 400 ∧
    (connectHandler s body v).2.error = some "Missing required credentials" := by
  have hc : (jsStrFalsy body.projectId || jsStrFalsy body.clientEmail ||
      jsStrFalsy body.privateKey) = true := by
    rcases h with h | h | h <;> simp [h]
  unfold connectHandler
  simp [hc]

/-- C3 witness: connect with the private key missing leaves the store
unchanged and yields 400. -/
theorem connect_missing_field_400_witness :
    (jsStrFalsy (some "p") = true ∨ jsStrFalsy (some "e") = true ∨
      jsStrFalsy (none : Option String) = true) ∧
    ((connectHandler initialStore ⟨some "p", some "e", none⟩ (.ok ())).1 =
        initialStore ∧
     (connectHandler initialStore ⟨some "p", some "e", none⟩ (.ok ())).2.status = 400 ∧
     (connectHandler initialStore ⟨some "p", some "e", none⟩ (.ok ())).2.error =
       some "Missing required credentials") :=
  ⟨by decide,
   connect_missing_field_400 initialStore ⟨some "p", some "e", none⟩ (.ok ())
     (by decide)⟩

/-- C6: disconnect always succeeds, leaves the store with status
reporting connected=false from any prior state, and is idempotent: a
second disconnect produces the same store and the same response. -/
theorem disconnect_clears_idempotent (s : Store) :
    (disconnectHandler s).2 = { status := 200, success := true } ∧
    (statusHandler (disconnectHandler s).1).connected = false ∧
    (disconnectHandler (disconnectHandler s).1).1 = (disconnectHandler s).1 ∧
    (disconnectHandler (disconnectHandler s).1).2 = (disconnectHandler s).2 :=
  ⟨rfl, rfl, rfl, rfl⟩

/-- C4: any of the four data requests (list datasets, list tables, get
table page, run query) made while the client slot is empty answers 401,
makes no upstream call, and leaves the store unchanged. -/
theorem disconnected_401_no_upstream (s : Store)
    (h : s.bigQueryClient = none)
    (u1 : Except String (List UpstreamDataset))
    (dsid : String) (u2 : Except String (List UpstreamTable))
    (p : DataParams) (mo : Except String TableMetadata)
    (qo : Except String (List Row))
    (q : Option String) (u3 : Except String (List Row)) :
    ((datasetsHandler s u1).2.1.status = 401 ∧ (datasetsHandler s u1).2.2 = false ∧
      (datasetsHandler s u1).1 = s) ∧
    ((tablesHandler s dsid u2).2.1.status = 401 ∧
      (tablesHandler s dsid u2).2.2 = false ∧ (tablesHandler s dsid u2).1 = s) ∧
    ((dataHandler s p mo qo).2.1.status = 401 ∧
      (dataHandler s p mo qo).2.2.1 = false ∧ (dataHandler s p mo qo).1 = s) ∧
    ((queryHandler s q u3).2.1.status = 401 ∧ (queryHandler s q u3).2.2 = false ∧
      (queryHandler s q u3).1 = s) := by
  unfold datasetsHandler tablesHandler dataHandler queryHandler
  simp [h]

/-- C4 witness: the four handlers on the initial (disconnected) store. -/
theorem disconnected_401_no_upstream_witness :
    initialStore.bigQueryClient = none ∧
    (((datasetsHandler initialStore (.ok [])).2.1.status = 401 ∧
      (datasetsHandler initialStore (.ok [])).2.2 = false ∧
      (datasetsHandler initialStore (.ok [])).1 = initialStore) ∧
     ((tablesHandler initialStore "d" (.ok [])).2.1.status = 401 ∧
      (tablesHandler initialStore "d" (.ok [])).2.2 = false ∧
      (tablesHandler initialStore "d" (.ok [])).1 = initialStore) ∧
     ((dataHandler initialStore ⟨"d", "t", none, none⟩ (.ok ⟨none, none⟩)
        (.ok [])).2.1.status = 401 ∧
      (dataHandler initialStore ⟨"d", "t", none, none⟩ (.ok ⟨none, none⟩)
        (.ok [])).2.2.1 = false ∧
      (dataHandler initialStore ⟨"d", "t", none, none⟩ (.ok ⟨none, none⟩)
        (.ok [])).1 = initialStore) ∧
     ((queryHandler initialStore (some "SELECT 1") (.ok [])).2.1.status = 401 ∧
      (queryHandler initialStore (some "SELECT 1") (.ok [])).2.2 = false ∧
      (queryHandler initialStore (some "SELECT 1") (.ok [])).1 = initialStore)) :=
  ⟨rfl,
   disconnected_401_no_upstream initialStore rfl (.ok []) "d" (.ok [])
     ⟨"d", "t", none, none⟩ (.ok ⟨none, none⟩) (.ok []) (some "SELECT 1") (.ok [])⟩

/-- C5: a get-table-page request whose limit parameter does not parse to a
number (absent, or non-numeric such as "abc") uses the default limit 100,
and likewise offset defaults to 0, in the SQL sent upstream. -/
theorem data_limit_offset_defaults (s : Store) (c : ClientConfig)
    (creds : Credentials) (p : DataParams) (md : TableMetadata)
    (rows : List Row)
    (hc : s.bigQueryClient = some c) (hcr : s.bigQueryCredentials = some creds)
    (hl : jsParseInt p.limit = none) (ho : jsParseInt p.offset = none) :
    jsParseInt none = none ∧ jsParseInt (some "abc") = none ∧
    (dataHandler s p (.ok md) (.ok rows)).2.2.2 =
      some (buildTableQuery creds.projectId p.datasetId p.tableId 100 0) := by
  refine ⟨rfl, by decide, ?_⟩
  unfold dataHandler
  simp [hc, hcr, hl, ho, jsNumOr]

/-- C5 witness: connected store, limit=abc and offset absent produce
LIMIT 100 OFFSET 0. -/
theorem data_limit_offset_defaults_witness :
    (⟨some ⟨"p", "e", "k"⟩, some ⟨"p", "e"⟩⟩ : Store).bigQueryClient =
      some ⟨"p", "e", "k"⟩ ∧
    (⟨some ⟨"p", "e", "k"⟩, some ⟨"p", "e"⟩⟩ : Store).bigQueryCredentials =
      some ⟨"p", "e"⟩ ∧
    jsParseInt (some "abc") = none ∧
    jsParseInt (none : Option String) = none ∧
    (dataHandler ⟨some ⟨"p", "e", "k"⟩, some ⟨"p", "e"⟩⟩
        ⟨"ds", "tbl", some "abc", none⟩ (.ok ⟨none, none⟩) (.ok [])).2.2.2 =
      some (buildTableQuery "p" "ds" "tbl" 100 0) :=
  ⟨rfl, rfl, by decide, rfl,
   (data_limit_offset_defaults ⟨some ⟨"p", "e", "k"⟩, some ⟨"p", "e"⟩⟩
      ⟨"p", "e", "k"⟩ ⟨"p", "e"⟩ ⟨"ds", "tbl", some "abc", none⟩
      ⟨none, none⟩ [] rfl rfl (by decide) rfl).2.2⟩

/-- C7: after a successful connect with all three fields present, the
response is 200 and a subsequent status reports connected=true with the
same projectId that was supplied. -/
theorem connect_success_status_reports (s : Store) (body : ConnectBody)
    (pid : String) (hp : body.projectId = some pid)
    (h : (jsStrFalsy body.projectId || jsStrFalsy body.clientEmail ||
          jsStrFalsy body.privateKey) = false) :
    (connectHandler s body (.ok ())).2.status = 200 ∧
    (connectHandler s body (.ok ())).2.success = true ∧
    (statusHandler (connectHandler s body (.ok ())).1).connected = true ∧
    (statusHandler (connectHandler s body (.ok ())).1).projectId = some pid := by
  have h1 : jsStrFalsy body.projectId = false :=
    (Bool.or_eq_false_iff.mp (Bool.or_eq_false_iff.mp h).1).1
  have h2 : jsStrFalsy body.clientEmail = false :=
    (Bool.or_eq_false_iff.mp (Bool.or_eq_false_iff.mp h).1).2
  have h3 : jsStrFalsy body.privateKey = false :=
    (Bool.or_eq_false_iff.mp h).2
  have h1p : jsStrFalsy (some pid) = false := hp ▸ h1
  have hpne : pid ≠ "" := by
    intro he
    rw [he] at h1p
    simp [jsStrFalsy] at h1p
  unfold connectHandler
  simp [h1p, h2, h3, statusHandler, jsOrNull, hp, hpne]

/-- C7 witness: connect with projectId "proj1" then read status. -/
theorem connect_success_status_reports_witness :
    (⟨some "proj1", some "svc", some "KEY"⟩ : ConnectBody).projectId =
      some "proj1" ∧
    (jsStrFalsy (some "proj1") || jsStrFalsy (some "svc") ||
      jsStrFalsy (some "KEY")) = false ∧
    ((connectHandler initialStore ⟨some "proj1", some "svc", some "KEY"⟩
        (.ok ())).2.status = 200 ∧
     (connectHandler initialStore ⟨some "proj1", some "svc", some "KEY"⟩
        (.ok ())).2.success = true ∧
     (statusHandler (connectHandler initialStore
        ⟨some "proj1", some "svc", some "KEY"⟩ (.ok ())).1).connected = true ∧
     (statusHandler (connectHandler initialStore
        ⟨some "proj1", some "svc", some "KEY"⟩ (.ok ())).1).projectId =
       some "proj1") :=
  ⟨rfl, by decide,
   connect_success_status_reports initialStore
     ⟨some "proj1", some "svc", some "KEY"⟩ "proj1" rfl (by decide)⟩

/-- C8: a run-query request while connected whose query field is missing
or empty answers 400 "Query is required", makes no upstream call, and
leaves the store unchanged. -/
theorem query_missing_400_no_upstream (s : Store) (c : ClientConfig)
    (q : Option String) (u : Except String (List Row))
    (hc : s.bigQueryClient = some c) (hq : jsStrFalsy q = true) :
    (queryHandler s q u).2.1.status = 400 ∧
    (queryHandler s q u).2.1.error = some "Query is required" ∧
    (queryHandler s q u).2.2 = false ∧
    (queryHandler s q u).1 = s := by
  unfold queryHandler
  simp [hc, hq]

/-- C8 witness: empty query on a connected store. -/
theorem query_missing_400_no_upstream_witness :
    (⟨some ⟨"p", "e", "k"⟩, some ⟨"p", "e"⟩⟩ : Store).bigQueryClient =
      some ⟨"p", "e", "k"⟩ ∧
    jsStrFalsy (some "") = true ∧
    ((queryHandler ⟨some ⟨"p", "e", "k"⟩, some ⟨"p", "e"⟩⟩ (some "")
        (.ok [])).2.1.status = 400 ∧
     (queryHandler ⟨some ⟨"p", "e", "k"⟩, some ⟨"p", "e"⟩⟩ (some "")
        (.ok [])).2.1.error = some "Query is required" ∧
     (queryHandler ⟨some ⟨"p", "e", "k"⟩, some ⟨"p", "e"⟩⟩ (some "")
        (.ok [])).2.2 = false ∧
     (queryHandler ⟨some ⟨"p", "e", "k"⟩, some ⟨"p", "e"⟩⟩ (some "")
        (.ok [])).1 = ⟨some ⟨"p", "e", "k"⟩, some ⟨"p", "e"⟩⟩) :=
  ⟨rfl, by decide,
   query_missing_400_no_upstream ⟨some ⟨"p", "e", "k"⟩, some ⟨"p", "e"⟩⟩
     ⟨"p", "e", "k"⟩ (some "") (.ok []) rfl (by decide)⟩

/-- C10: a get-table-page request whose limit parameter parses to the
number 0 (for example limit=0) silently uses the default limit 100 in the
SQL sent upstream, because the falsy-number fallback treats 0 like an
absent parameter. -/
theorem data_limit_zero_uses_default (s : Store) (c : ClientConfig)
    (creds : Credentials) (p : DataParams) (md : TableMetadata)
    (rows : List Row)
    (hc : s.bigQueryClient = some c) (hcr : s.bigQueryCredentials = some creds)
    (hl : jsParseInt p.limit = some 0) (ho : jsParseInt p.offset = none) :
    jsParseInt (some "0") = some 0 ∧
    jsNumOr (some 0) 100 = 100 ∧
    (dataHandler s p (.ok md) (.ok rows)).2.2.2 =
      some (buildTableQuery creds.projectId p.datasetId p.tableId 100 0) := by
  refine ⟨by decide, rfl, ?_⟩
  unfold dataHandler
  simp [hc, hcr, hl, ho, jsNumOr]

/-- C10 witness: connected store, limit=0 produces LIMIT 100. -/
theorem data_limit_zero_uses_default_witness :
    (⟨some ⟨"p", "e", "k"⟩, some ⟨"p", "e"⟩⟩ : Store).bigQueryClient =
      some ⟨"p", "e", "k"⟩ ∧
    (⟨some ⟨"p", "e", "k"⟩, some ⟨"p", "e"⟩⟩ : Store).bigQueryCredentials =
      some ⟨"p", "e"⟩ ∧
    jsParseInt (some "0") = some 0 ∧
    jsParseInt (none : Option String) = none ∧
    (dataHandler ⟨some ⟨"p", "e", "k"⟩, some ⟨"p", "e"⟩⟩
        ⟨"ds", "tbl", some "0", none⟩ (.ok ⟨none, none⟩) (.ok [])).2.2.2 =
      some (buildTableQuery "p" "ds" "tbl" 100 0) :=
  ⟨rfl, rfl, by decide, rfl,
   (data_limit_zero_uses_default ⟨some ⟨"p", "e", "k"⟩, some ⟨"p", "e"⟩⟩
      ⟨"p", "e", "k"⟩ ⟨"p", "e"⟩ ⟨"ds", "tbl", some "0", none⟩
      ⟨none, none⟩ [] rfl rfl (by decide) rfl).2.2⟩

/-- Property access on a row finds the value stored at its first key. -/
theorem jsGet_head (k : String) (v : JsVal) (t : Row) :
    jsGet ((k, v) :: t) k = v := by
  simp [jsGet, List.find?_cons_of_pos]

/-- Property access for a name other than the head key skips the head. -/
theorem jsGet_cons_ne (k : String) (v : JsVal) (t : Row) (n : String)
    (hn : n ≠ k) : jsGet ((k, v) :: t) n = jsGet t n := by
  have hb : (k == n) = false := by simp [Ne.symm hn]
  simp [jsGet, List.find?_cons_of_neg, hb]

/-- On a row with distinct keys (a JS object), walking `Object.keys` and
looking each key back up reproduces the row's own (name, value-type)
pairs in order. -/
theorem keys_lookup_schema (r : Row) (h : (jsObjectKeys r).Nodup) :
    (jsObjectKeys r).map (fun n => (n, jsTypeof (jsGet r n))) =
      r.map (fun p => (p.1, jsTypeof p.2)) := by
  induction r with
  | nil => rfl
  | cons p t ih =>
      obtain ⟨k, v⟩ := p
      simp only [jsObjectKeys, List.map_cons] at h ⊢
      rw [List.nodup_cons] at h
      have htail : (t.map Prod.fst).map (fun n => (n, jsTypeof (jsGet ((k, v) :: t) n)))
          = (t.map Prod.fst).map (fun n => (n, jsTypeof (jsGet t n))) := by
        refine List.map_congr_left (fun n hn => ?_)
        have hnk : n ≠ k := by
          rintro rfl
          exact h.1 hn
        rw [jsGet_cons_ne _ _ _ _ hnk]
      rw [jsGet_head, htail]
      have hih := ih h.2
      simp only [jsObjectKeys] at hih
      rw [hih]

/-- C9: a successful run-query response carries a schema inferred from
the first returned row — one (name, type) entry per key of the first
row, the type being the runtime type name of that key's value — and an
empty schema when no rows come back. -/
theorem query_schema_from_first_row (s : Store) (c : ClientConfig)
    (q : Option String) (rows : List Row)
    (hc : s.bigQueryClient = some c) (hq : jsStrFalsy q = false) :
    (queryHandler s q (.ok rows)).2.1.status = 200 ∧
    (queryHandler s q (.ok rows)).2.1.rows = rows ∧
    (rows = [] → (queryHandler s q (.ok rows)).2.1.schema = []) ∧
    (∀ r rest, rows = r :: rest → (jsObjectKeys r).Nodup →
      (queryHandler s q (.ok rows)).2.1.schema =
        r.map (fun p => (p.1, jsTypeof p.2))) := by
  have hred : queryHandler s q (.ok rows) =
      (s, { status := 200, rows := rows, schema := inferSchema rows,
            error := none }, true) := by
    unfold queryHandler
    simp [hc, hq]
  rw [hred]
  refine ⟨rfl, rfl, ?_, ?_⟩
  · rintro rfl
    rfl
  · rintro r rest rfl hnd
    exact keys_lookup_schema r hnd

/-- C9 witness: a two-column first row yields a two-entry schema with the
runtime type names; an empty result yields an empty schema. -/
theorem query_schema_from_first_row_witness :
    (⟨some ⟨"p", "e", "k"⟩, some ⟨"p", "e"⟩⟩ : Store).bigQueryClient =
      some ⟨"p", "e", "k"⟩ ∧
    jsStrFalsy (some "SELECT 1") = false ∧
    (queryHandler ⟨some ⟨"p", "e", "k"⟩, some ⟨"p", "e"⟩⟩ (some "SELECT 1")
        (.ok [[("a", JsVal.num 3), ("b", JsVal.str "x")]])).2.1.schema =
      [("a", "number"), ("b", "string")] ∧
    (queryHandler ⟨some ⟨"p", "e", "k"⟩, some ⟨"p", "e"⟩⟩ (some "SELECT 1")
        (.ok [])).2.1.schema = [] :=
  ⟨rfl, by decide,
   by
    rw [(query_schema_from_first_row ⟨some ⟨"p", "e", "k"⟩, some ⟨"p", "e"⟩⟩
          ⟨"p", "e", "k"⟩ (some "SELECT 1")
          [[("a", JsVal.num 3), ("b", JsVal.str "x")]] rfl (by decide)).2.2.2
          [("a", JsVal.num 3), ("b", JsVal.str "x")] [] rfl (by decide)]
    rfl,
   (query_schema_from_first_row ⟨some ⟨"p", "e", "k"⟩, some ⟨"p", "e"⟩⟩
      ⟨"p", "e", "k"⟩ (some "SELECT 1") [] rfl (by decide)).2.2.1 rfl⟩

end BigQueryViewer
